import Mathlib

/-!
Shallow embedding of the Multical_C_backend authentication service.

Sources embedded here:
- src/server.js (second variant, lines 91-296: the one with input validation,
  a 24h token TTL and the fallback signing secret) - signup and login handlers;
- src/middleware/auth.js - the authenticateToken session middleware;
- src/routes/auth.js - the router variant of signup and login.

JavaScript conventions modelled explicitly:
- request body fields are `Option String` (a missing field is `none`);
- JS truthiness of such a field: `undefined`, `null` and the empty string are
  falsy, every other string truthy;
- `bcrypt.hash(p, 10)` draws a random salt; the salt is passed in as an
  explicit oracle argument. A digest is an opaque inductive value recording
  the cost factor, the salt and the hashed plaintext; `bcrypt.compare`
  succeeds exactly when the candidate plaintext equals the hashed one.
- `jwt.sign(claims, secret, expiresIn)` produces a structured token carrying
  the claims, issued-at, expiry (issued-at + ttl) and the signing secret;
  `jwt.verify` checks the signature (secret equality) first, then expiry,
  exactly as the jsonwebtoken library orders its checks. Times are seconds
  as `Nat`.
-/

/-- JS truthiness of an optional string field: `undefined` and the empty
string are falsy, every other string is truthy. -/
def jsTruthy : Option String → Bool
  | none => false
  | some s => s.length != 0

/-- Opaque bcrypt-family digest: cost factor, salt, and the hashed plaintext.
The plaintext inside is not observable by the store; `bcryptCompare` is the
only observer, mirroring the one-way contract of bcryptjs. -/
inductive Digest where
  | bcrypt (cost : Nat) (salt : Nat) (pw : String)
deriving DecidableEq, Repr

/-- Model of `bcrypt.compare(candidate, digest)`: true iff the candidate
plaintext equals the plaintext the digest was derived from. -/
def bcryptCompare (candidate : String) : Digest → Bool
  | .bcrypt _ _ pw => candidate == pw

/-- A persisted user record (mongoose schema in src/server.js lines 169-174:
`username` unique, `password`; the automatic timestamps are omitted as no
claim mentions them). `id` models the MongoDB `_id`. -/
structure UserRec where
  id : Nat
  username : String
  password : Digest
deriving DecidableEq, Repr

/-- The users collection. -/
abbrev Store := List UserRec

/-- Model of `User.findOne` keyed on the username field. -/
def findOne (store : Store) (u : String) : Option UserRec :=
  store.find? (fun r => r.username == u)

/-- Model of `newUser.save()` against the collection whose `username` field
carries a unique index (schema option `unique: true`, src/server.js): the
insert is rejected by the storage layer when a record with the same username
is already present, otherwise the record is added. The fresh `_id` is
modelled as the current collection size. -/
def insertUnique (store : Store) (u : String) (d : Digest) : Option Store :=
  match findOne store u with
  | some _ => none
  | none => some (⟨store.length, u, d⟩ :: store)

/-- Outcomes of POST /api/auth/signup (src/server.js lines 191-223), one
constructor per distinct response of the handler. -/
inductive SignupRes where
  /-- message "Username and password are required" -/
  | validationRequired
  /-- message "Password must be at least 6 characters long" -/
  | validationShort
  /-- message "Username already exists" -/
  | duplicateUsername
  /-- message "Error creating user" (catch branch, e.g. a storage-layer
  unique-index rejection of the save) -/
  | createError
  /-- message "User created successfully" -/
  | success
deriving DecidableEq, Repr

/-- The exact response message of each signup outcome (string literals from
src/server.js). -/
def signupMessage : SignupRes → String
  | .validationRequired => "Username and password are required"
  | .validationShort => "Password must be at least 6 characters long"
  | .duplicateUsername => "Username already exists"
  | .createError => "Error creating user"
  | .success => "User created successfully"

/-- The spec error taxonomy maps both validation messages to
`ValidationError`. -/
def isValidationError (r : SignupRes) : Prop :=
  r = .validationRequired ∨ r = .validationShort

instance (r : SignupRes) : Decidable (isValidationError r) := by
  unfold isValidationError; infer_instance

/-- POST /api/auth/signup handler, src/server.js lines 191-223:
reject falsy username or password, reject passwords shorter than 6
characters, reject an existing username, otherwise hash with cost 10 and
save. Returns the outcome and the resulting collection. -/
def serverSignup (store : Store) (username password : Option String)
    (salt : Nat) : SignupRes × Store :=
  if !jsTruthy username || !jsTruthy password then (.validationRequired, store)
  else if (password.getD "").length < 6 then (.validationShort, store)
  else
    match findOne store (username.getD "") with
    | some _ => (.duplicateUsername, store)
    | none =>
      match insertUnique store (username.getD "")
          (Digest.bcrypt 10 salt (password.getD "")) with
      | some store' => (.success, store')
      | none => (.createError, store)

/-- Claims payload of the token minted by src/server.js line 248:
`{ userId: user._id, username: user.username }`. -/
structure Claims where
  userId : Nat
  username : String
deriving DecidableEq, Repr

/-- Signed token: claims, issued-at, expiry and the secret it was signed
with (equality of that field models HMAC signature validity). -/
structure Token where
  claims : Claims
  iat : Nat
  exp : Nat
  secret : String
deriving DecidableEq, Repr

/-- Model of `jwt.sign` with an `expiresIn` of `ttl` seconds at time `now`:
expiry is issued-at plus ttl. -/
def jwtSign (c : Claims) (secret : String) (now ttl : Nat) : Token :=
  ⟨c, now, now + ttl, secret⟩

/-- Failure kinds of `jwt.verify`. -/
inductive VerifyErr where
  | badSignature
  | expired
  | malformed
deriving DecidableEq, Repr

/-- Model of `jwt.verify(token, secret)` evaluated at time `now`: the
signature is checked before expiry (jsonwebtoken verifies the signature,
then rejects with TokenExpiredError when `now >= exp`). -/
def jwtVerify (t : Token) (secret : String) (now : Nat) :
    Except VerifyErr Claims :=
  if t.secret ≠ secret then .error .badSignature
  else if t.exp ≤ now then .error .expired
  else .ok t.claims

/-- TTL of the login token in src/server.js: 24 hours, i.e. 86400
seconds. -/
def loginTTL : Nat := 86400

/-- Outcomes of POST /api/auth/login (src/server.js lines 225-259). -/
inductive LoginRes where
  /-- message "Username and password are required" -/
  | validationRequired
  /-- message "Invalid credentials" (user absent or password mismatch: the
  handler returns the identical response in both cases) -/
  | invalidCredentials
  /-- message "Login successful", with the freshly signed token -/
  | success (token : Token)
deriving DecidableEq, Repr

/-- The exact response message of each login outcome (string literals from
src/server.js: the absent-user branch at line 237 and the bad-password
branch at line 243 return the same literal). -/
def loginMessage : LoginRes → String
  | .validationRequired => "Username and password are required"
  | .invalidCredentials => "Invalid credentials"
  | .success _ => "Login successful"

/-- POST /api/auth/login handler, src/server.js lines 225-259: reject falsy
username or password, look up the user (absent → invalid credentials),
compare the password against the stored digest (mismatch → invalid
credentials), then sign a 24h token over `{ userId, username }`. -/
def serverLogin (store : Store) (username password : Option String)
    (secret : String) (now : Nat) : LoginRes :=
  if !jsTruthy username || !jsTruthy password then .validationRequired
  else
    match findOne store (username.getD "") with
    | none => .invalidCredentials
    | some user =>
      if bcryptCompare (password.getD "") user.password then
        .success (jwtSign ⟨user.id, user.username⟩ secret now loginTTL)
      else .invalidCredentials

/-! ### Session middleware (src/middleware/auth.js) -/

/-- JS `split` with the single-space separator, on the character list of
the string: separators produce empty segments, and the empty string splits
to the one-element list holding the empty string, exactly as in JS. -/
def jsSplitSpace (s : String) : List String :=
  (s.toList.splitOn ' ').map (fun cs => String.mk cs)

/-- The request fields read by the middleware: `req.cookies.authToken` and
`req.headers` at the authorization key. A missing field is `none`. -/
structure AuthRequest where
  cookieAuthToken : Option String
  authHeader : Option String
deriving DecidableEq

/-- Value of the JS expression computing the candidate token in
src/middleware/auth.js lines 5-6: the cookie when truthy, otherwise the
short-circuit of the header with its split at index 1, whose value is the
second space-separated part of the header when the header is truthy and the
falsy header itself otherwise. -/
def tokenExpr (req : AuthRequest) : Option String :=
  if jsTruthy req.cookieAuthToken then req.cookieAuthToken
  else if jsTruthy req.authHeader then (jsSplitSpace (req.authHeader.getD ""))[1]?
  else req.authHeader

/-- Verdicts of the middleware, one per response of src/middleware/auth.js:
401 with message "Access token required", 403 with message
"Invalid or expired token", or calling `next()` with `req.user` set. -/
inductive AuthResult where
  | unauthorized401
  | forbidden403
  | next (user : Claims)
deriving DecidableEq

/-- The authenticateToken middleware of src/middleware/auth.js,
parameterized by the verification outcome function `verify` (the call
`jwt.verify(token, secret, callback)`): falsy candidate token rejects with
401, failed verification with 403, success attaches the decoded claims. -/
def authenticateToken (verify : String → Except VerifyErr Claims)
    (req : AuthRequest) : AuthResult :=
  if !jsTruthy (tokenExpr req) then .unauthorized401
  else
    match verify ((tokenExpr req).getD "") with
    | .error _ => .forbidden403
    | .ok user => .next user

/-- Normalized view of the bearer-style header extraction: the second
space-separated part of the authorization header, when the header is
truthy and that part exists and is nonempty. -/
def headerBearerToken (req : AuthRequest) : Option String :=
  match req.authHeader with
  | none => none
  | some h =>
    if h.length = 0 then none
    else
      match (jsSplitSpace h)[1]? with
      | none => none
      | some t => if t.length = 0 then none else some t

/-- Normalized candidate token of the middleware: the cookie when truthy
(an empty-valued cookie counts as absent, by JS falsiness), otherwise the
bearer part of the authorization header. -/
def candidateToken (req : AuthRequest) : Option String :=
  if jsTruthy req.cookieAuthToken then req.cookieAuthToken
  else headerBearerToken req

/-! ### Router variant (src/routes/auth.js) -/

/-- Outcomes of the router signup (src/routes/auth.js lines 18-37). -/
inductive RouteSignupRes where
  /-- 400, message "Username already exists" -/
  | duplicateUsername
  /-- 400, message "Error creating user" -/
  | createError
  /-- 201, message "User created successfully" -/
  | created
deriving DecidableEq

/-- Modelled from the spec: src/routes/auth.js persists via the User model
of src/models/User.js, which is not under src; per the spec (sections 3 and
4.2) the stored password is produced by a bcrypt-family hash with cost
factor 10 before the record is persisted, so the pre-save transformation of
the missing model is taken to be exactly that hash. -/
def presaveHash (p : String) (salt : Nat) : Digest :=
  Digest.bcrypt 10 salt p

/-- The router signup handler (src/routes/auth.js lines 18-37): no input
validation; an existing username is rejected, otherwise the record is
persisted through the User model (whose pre-save hashing is modelled by
`presaveHash`); a save failure lands in the catch branch. -/
def routeSignup (store : Store) (u p : String) (salt : Nat) :
    RouteSignupRes × Store :=
  match findOne store u with
  | some _ => (.duplicateUsername, store)
  | none =>
    match insertUnique store u (presaveHash p salt) with
    | some store' => (.created, store')
    | none => (.createError, store)

/-! ### Login response delivery (claim C8) -/

/-- Attributes of a Set-Cookie directive as Express would emit it. The
login handlers never construct one. -/
structure SetCookie where
  name : String
  value : String
  httpOnly : Bool
  secure : Bool
  sameSite : String
  maxAge : Nat
deriving DecidableEq

/-- Full HTTP response of the login handler: JSON body plus the Set-Cookie
directives issued alongside it. -/
structure HttpLoginResponse where
  body : LoginRes
  setCookies : List SetCookie
deriving DecidableEq

/-- The complete response of POST /api/auth/login in src/server.js: the
handler only ever calls `res.json`, never `res.cookie`, so the Set-Cookie
list is empty on every path. -/
def serverLoginHttp (store : Store) (username password : Option String)
    (secret : String) (now : Nat) : HttpLoginResponse :=
  ⟨serverLogin store username password secret now, []⟩

/-! ### Interleaved signups (claim C9)

Each signup request is broken at its await points: the existence check
(`User.findOne`), the hash (`bcrypt.hash`), and the save. The storage
layer enforces the unique index on username (`insertUnique`), so a save
that races past the application-level existence check is still rejected. -/

/-- Progress of one in-flight signup request: not yet started, past the
validation and existence check, past the hash, or finished. -/
inductive SPhase where
  | start
  | checked (found : Bool)
  | hashed (d : Digest)
  | done (r : SignupRes)
deriving DecidableEq

/-- Parameters of one signup request. -/
structure SignupOp where
  username : Option String
  password : Option String
  salt : Nat

/-- One atomic step of a signup request against the shared store,
mirroring the await points of the handler in src/server.js. -/
def sstep (op : SignupOp) (store : Store) : SPhase → Store × SPhase
  | .start =>
    if !jsTruthy op.username || !jsTruthy op.password then
      (store, .done .validationRequired)
    else if (op.password.getD "").length < 6 then
      (store, .done .validationShort)
    else (store, .checked (findOne store (op.username.getD "")).isSome)
  | .checked true => (store, .done .duplicateUsername)
  | .checked false =>
    (store, .hashed (Digest.bcrypt 10 op.salt (op.password.getD "")))
  | .hashed d =>
    match insertUnique store (op.username.getD "") d with
    | some store' => (store', .done .success)
    | none => (store, .done .createError)
  | .done r => (store, .done r)

/-- Shared store plus the progress of two concurrent signup requests. -/
structure CState where
  store : Store
  ph1 : SPhase
  ph2 : SPhase

/-- Run two signup requests under an arbitrary interleaving: each schedule
entry picks which request performs its next atomic step. -/
def crun (op1 op2 : SignupOp) : List Bool → CState → CState
  | [], s => s
  | true :: rest, s =>
    crun op1 op2 rest
      ⟨(sstep op1 s.store s.ph1).1, (sstep op1 s.store s.ph1).2, s.ph2⟩
  | false :: rest, s =>
    crun op1 op2 rest
      ⟨(sstep op2 s.store s.ph2).1, s.ph1, (sstep op2 s.store s.ph2).2⟩

/-- Whether a request has finished with the success response. -/
def succeededB (ph : SPhase) : Bool :=
  ph == SPhase.done .success

/-- Sample verification outcome function used to instantiate the
middleware theorems on concrete inputs. -/
def sampleVerify : String → Except VerifyErr Claims :=
  fun t => if t == "validtoken" then .ok ⟨1, "alice"⟩ else .error .badSignature

/-- Concrete one-user store used by concrete instantiations: the record
persisted by a signup of alice with password secret1 and salt 0. -/
def store0 : Store := [⟨0, "alice", .bcrypt 10 0 "secret1"⟩]

/-! ### Helper lemmas -/

/-- A nonempty optional string is truthy. -/
lemma jsTruthy_some {s : String} (h : s.length ≠ 0) : jsTruthy (some s) = true := by
  simp [jsTruthy, h]

/-- Lookup after inserting a record with the looked-up username finds that
record at the head. -/
lemma findOne_cons_self (store : Store) (n : Nat) (u : String) (d : Digest) :
    findOne (⟨n, u, d⟩ :: store) u = some ⟨n, u, d⟩ := by
  simp [findOne, List.find?]

/-! ### Claim C4 -/

/-- C4: a token issued at time T with TTL D and verified with the same
secret succeeds and returns the embedded claims at every time strictly
before T+D, and fails with Expired at every time at or after T+D. -/
theorem token_ttl_verify (c : Claims) (secret : String) (iat ttl now : Nat) :
    (now < iat + ttl → jwtVerify (jwtSign c secret iat ttl) secret now = .ok c) ∧
    (iat + ttl ≤ now →
      jwtVerify (jwtSign c secret iat ttl) secret now = .error .expired) := by
  constructor
  · intro h
    simp [jwtVerify, jwtSign, Nat.not_le.mpr h]
  · intro h
    simp [jwtVerify, jwtSign, h]

/-- Instantiation of the C4 theorem: a token issued at 100 with TTL 50 is
accepted at 149 and rejected as expired at 150. -/
theorem token_ttl_verify_witness :
    jwtVerify (jwtSign ⟨1, "alice"⟩ "k" 100 50) "k" 149 = .ok ⟨1, "alice"⟩ ∧
    jwtVerify (jwtSign ⟨1, "alice"⟩ "k" 100 50) "k" 150 = .error .expired :=
  ⟨(token_ttl_verify ⟨1, "alice"⟩ "k" 100 50 149).1 (by decide),
   (token_ttl_verify ⟨1, "alice"⟩ "k" 100 50 150).2 (by decide)⟩

/-! ### Claim C7 -/

/-- C7: a token signed with one secret fails verification under any other
secret with BadSignature, for every claims payload, issue time, TTL and
verification time (in particular also for expired tokens: the signature
check precedes the expiry check). -/
theorem different_secret_bad_signature (c : Claims) (iat ttl now : Nat)
    (s1 s2 : String) (h : s1 ≠ s2) :
    jwtVerify (jwtSign c s1 iat ttl) s2 now = .error .badSignature := by
  simp [jwtVerify, jwtSign, h]

/-- Instantiation of the C7 theorem on concrete secrets, at a time where
the token is also already expired. -/
theorem different_secret_bad_signature_witness :
    jwtVerify (jwtSign ⟨1, "alice"⟩ "k1" 0 10 ) "k2" 99 = .error .badSignature :=
  different_secret_bad_signature ⟨1, "alice"⟩ 0 10 99 "k1" "k2" (by decide)

/-! ### Claim C8 -/

/-- C8 counterexample: a concrete successful login — alice with her correct
password against the one-user store — returns the token in the response
body but issues no Set-Cookie directive at all, contradicting the claim
that the token is also delivered as a cookie with HTTP-only, secure,
same-site and max-age attributes. -/
theorem login_cookie_counterexample :
    (serverLoginHttp store0 (some "alice") (some "secret1") "k" 5).body =
      .success (jwtSign ⟨0, "alice"⟩ "k" 5 loginTTL) ∧
    (serverLoginHttp store0 (some "alice") (some "secret1") "k" 5).setCookies = [] := by
  decide

/-- C8 (amended): on every successful login the issued token is delivered
in the response body field, and no cookie is set. -/
theorem login_token_in_body_only (store : Store) (u p secret : String)
    (now : Nat) (rec : UserRec) (hu : u.length ≠ 0) (hp : p.length ≠ 0)
    (hfind : findOne store u = some rec)
    (hmatch : bcryptCompare p rec.password = true) :
    serverLoginHttp store (some u) (some p) secret now =
      ⟨.success (jwtSign ⟨rec.id, rec.username⟩ secret now loginTTL), []⟩ := by
  simp [serverLoginHttp, serverLogin, jsTruthy, hu, hp, hfind, hmatch]

/-- Instantiation of the amended C8 theorem on the concrete one-user
store. -/
theorem login_token_in_body_only_witness :
    serverLoginHttp store0 (some "alice") (some "secret1") "k" 5 =
      ⟨.success (jwtSign ⟨0, "alice"⟩ "k" 5 loginTTL), []⟩ :=
  login_token_in_body_only store0 "alice" "secret1" "k" 5
    ⟨0, "alice", .bcrypt 10 0 "secret1"⟩ (by decide) (by decide) (by decide)
    (by decide)

/-! ### Claim C6 -/

/-- C6: a signup request with a missing username, a missing password, or a
password shorter than 6 characters fails with one of the two validation
responses and leaves the store unchanged — no user record is created. -/
theorem invalid_signup_rejected (store : Store)
    (username password : Option String) (salt : Nat)
    (h : username = none ∨ password = none ∨
      ∃ p, password = some p ∧ p.length < 6) :
    isValidationError (serverSignup store username password salt).1 ∧
    (serverSignup store username password salt).2 = store := by
  rcases h with h | h | ⟨p, hp, hlen⟩
  · subst h
    simp [serverSignup, jsTruthy, isValidationError]
  · subst h
    simp [serverSignup, jsTruthy, isValidationError]
  · subst hp
    by_cases hu : jsTruthy username
    · by_cases hpz : p.length = 0
      · simp [serverSignup, jsTruthy, hu, hpz, isValidationError]
      · simp [serverSignup, hu, jsTruthy_some hpz, hlen, isValidationError]
    · simp [serverSignup, hu, isValidationError]

/-- Instantiation of the C6 theorem: a five-character password is rejected
as a validation failure and the store stays as it was. -/
theorem invalid_signup_rejected_witness :
    isValidationError (serverSignup store0 (some "bob") (some "abc12") 3).1 ∧
    (serverSignup store0 (some "bob") (some "abc12") 3).2 = store0 :=
  invalid_signup_rejected store0 (some "bob") (some "abc12") 3
    (Or.inr (Or.inr ⟨"abc12", rfl, by decide⟩))

/-! ### Claim C1 -/

/-- C1 counterexample (claim as stated): the empty username with a password
of valid length against the empty store satisfies the claim hypotheses
(password length at least 6, username not present), yet signup does not
succeed — the handler rejects the falsy username as a validation failure.
Moreover, after a successful signup of alice, a second signup with the
same username but a short password reports the length validation failure
rather than the duplicate. -/
theorem signup_then_login_counterexample :
    6 ≤ ("secret1" : String).length ∧
    findOne [] "" = none ∧
    (serverSignup [] (some "") (some "secret1") 0).1 = .validationRequired ∧
    (serverSignup [] (some "alice") (some "secret1") 0).1 = .success ∧
    (serverSignup (serverSignup [] (some "alice") (some "secret1") 0).2
        (some "alice") (some "abc") 1).1 = .validationShort := by
  decide

/-- C1 (amended): for every nonempty username not already present and every
password of length at least 6, signup succeeds and persists the new record;
a login with the same credentials then succeeds, returning a token over the
new record; and a second signup with the same username and any password of
valid length fails with DuplicateUsername and leaves the store — in
particular the first user record — unchanged. -/
theorem signup_then_login_exactly_once (store : Store) (u p secret : String)
    (salt now : Nat) (hu : u.length ≠ 0) (hp : 6 ≤ p.length)
    (habs : findOne store u = none) :
    serverSignup store (some u) (some p) salt =
      (.success, ⟨store.length, u, Digest.bcrypt 10 salt p⟩ :: store) ∧
    serverLogin (⟨store.length, u, Digest.bcrypt 10 salt p⟩ :: store)
        (some u) (some p) secret now =
      .success (jwtSign ⟨store.length, u⟩ secret now loginTTL) ∧
    ∀ (p2 : String) (salt2 : Nat), 6 ≤ p2.length →
      serverSignup (⟨store.length, u, Digest.bcrypt 10 salt p⟩ :: store)
          (some u) (some p2) salt2 =
        (.duplicateUsername, ⟨store.length, u, Digest.bcrypt 10 salt p⟩ :: store) := by
  have hpne : p.length ≠ 0 := by omega
  refine ⟨?_, ?_, ?_⟩
  · simp [serverSignup, jsTruthy_some hu, jsTruthy_some hpne, Nat.not_lt.mpr hp,
      habs, insertUnique]
  · simp [serverLogin, jsTruthy_some hu, jsTruthy_some hpne, findOne_cons_self,
      bcryptCompare]
  · intro p2 salt2 hp2
    have hp2ne : p2.length ≠ 0 := by omega
    simp [serverSignup, jsTruthy_some hu, jsTruthy_some hp2ne,
      Nat.not_lt.mpr hp2, findOne_cons_self]

/-- Instantiation of the amended C1 theorem: alice signs up on the empty
store, logs in, and a repeated signup is rejected as a duplicate. -/
theorem signup_then_login_exactly_once_witness :
    serverSignup [] (some "alice") (some "secret1") 0 =
      (.success, [⟨0, "alice", Digest.bcrypt 10 0 "secret1"⟩]) ∧
    serverLogin [⟨0, "alice", Digest.bcrypt 10 0 "secret1"⟩]
        (some "alice") (some "secret1") "k" 7 =
      .success (jwtSign ⟨0, "alice"⟩ "k" 7 loginTTL) ∧
    ∀ (p2 : String) (salt2 : Nat), 6 ≤ p2.length →
      serverSignup [⟨0, "alice", Digest.bcrypt 10 0 "secret1"⟩]
          (some "alice") (some p2) salt2 =
        (.duplicateUsername, [⟨0, "alice", Digest.bcrypt 10 0 "secret1"⟩]) :=
  signup_then_login_exactly_once [] "alice" "secret1" "k" 0 7
    (by decide) (by decide) (by decide)

/-! ### Claim C3 -/

/-- C3 counterexample (claim as stated): alice is a stored user and the
empty password does not verify against her stored hash, yet a login of
alice with the empty password fails with the required-fields validation
response, while a login with the unknown username bob and a wrong password
fails with the invalid-credentials response — the two failure messages
differ, so the two runs are distinguishable. -/
theorem login_enumeration_counterexample :
    findOne store0 "alice" = some ⟨0, "alice", .bcrypt 10 0 "secret1"⟩ ∧
    bcryptCompare "" (Digest.bcrypt 10 0 "secret1") = false ∧
    findOne store0 "bob" = none ∧
    serverLogin store0 (some "alice") (some "") "k" 0 = .validationRequired ∧
    serverLogin store0 (some "bob") (some "x") "k" 0 = .invalidCredentials ∧
    loginMessage (serverLogin store0 (some "alice") (some "") "k" 0) ≠
      loginMessage (serverLogin store0 (some "bob") (some "x") "k" 0) := by
  decide

/-- C3 (amended): restricted to nonempty usernames and passwords, a login
of a stored user with a password that does not verify against the stored
hash and a login with an unknown username produce the identical
InvalidCredentials outcome and the identical response message. -/
theorem wrong_password_indistinguishable (store : Store)
    (u p n q secret : String) (now : Nat) (rec : UserRec)
    (hu : u.length ≠ 0) (hp : p.length ≠ 0) (hn : n.length ≠ 0)
    (hq : q.length ≠ 0) (hfind : findOne store u = some rec)
    (hmis : bcryptCompare p rec.password = false)
    (habs : findOne store n = none) :
    serverLogin store (some u) (some p) secret now = .invalidCredentials ∧
    serverLogin store (some n) (some q) secret now = .invalidCredentials ∧
    loginMessage (serverLogin store (some u) (some p) secret now) =
      loginMessage (serverLogin store (some n) (some q) secret now) := by
  have h1 : serverLogin store (some u) (some p) secret now = .invalidCredentials := by
    simp [serverLogin, jsTruthy_some hu, jsTruthy_some hp, hfind, hmis]
  have h2 : serverLogin store (some n) (some q) secret now = .invalidCredentials := by
    simp [serverLogin, jsTruthy_some hn, jsTruthy_some hq, habs]
  exact ⟨h1, h2, by rw [h1, h2]⟩

/-- Instantiation of the amended C3 theorem: a wrong password for alice and
any password for the unknown bob yield the identical response. -/
theorem wrong_password_indistinguishable_witness :
    serverLogin store0 (some "alice") (some "wrongpw") "k" 0 = .invalidCredentials ∧
    serverLogin store0 (some "bob") (some "x") "k" 0 = .invalidCredentials ∧
    loginMessage (serverLogin store0 (some "alice") (some "wrongpw") "k" 0) =
      loginMessage (serverLogin store0 (some "bob") (some "x") "k" 0) :=
  wrong_password_indistinguishable store0 "alice" "wrongpw" "bob" "x" "k" 0
    ⟨0, "alice", .bcrypt 10 0 "secret1"⟩ (by decide) (by decide) (by decide)
    (by decide) (by decide) (by decide) (by decide)

/-! ### Claim C2 -/

/-- C2: every record present in the store after a signup — via the server
handler or the router handler — was either already stored before, or its
password field is the bcrypt digest with cost factor 10 and the drawn salt
of the submitted plaintext. The password field has the opaque digest type
throughout, so the plaintext itself is never what gets persisted. -/
theorem stored_password_always_hashed :
    (∀ (store : Store) (username password : Option String) (salt : Nat)
      (rec : UserRec), rec ∈ (serverSignup store username password salt).2 →
      rec ∈ store ∨
        ∃ p, password = some p ∧ rec.password = Digest.bcrypt 10 salt p) ∧
    (∀ (store : Store) (u p : String) (salt : Nat) (rec : UserRec),
      rec ∈ (routeSignup store u p salt).2 →
      rec ∈ store ∨ rec.password = Digest.bcrypt 10 salt p) := by
  constructor
  · intro store username password salt rec hmem
    unfold serverSignup at hmem
    split at hmem
    · exact Or.inl hmem
    · split at hmem
      · exact Or.inl hmem
      · split at hmem
        · exact Or.inl hmem
        · rename_i hcond _ _ _
          split at hmem
          · rename_i store' hins
            unfold insertUnique at hins
            split at hins
            · exact absurd hins (by simp)
            · rw [Option.some_inj] at hins
              subst hins
              rcases List.mem_cons.mp hmem with hhead | htail
              · subst hhead
                cases password with
                | none => simp [jsTruthy] at hcond
                | some p => exact Or.inr ⟨p, rfl, rfl⟩
              · exact Or.inl htail
          · exact Or.inl hmem
  · intro store u p salt rec hmem
    unfold routeSignup at hmem
    split at hmem
    · exact Or.inl hmem
    · split at hmem
      · rename_i store' hins
        unfold insertUnique at hins
        split at hins
        · exact absurd hins (by simp)
        · rw [Option.some_inj] at hins
          subst hins
          rcases List.mem_cons.mp hmem with hhead | htail
          · subst hhead
            exact Or.inr rfl
          · exact Or.inl htail
      · exact Or.inl hmem

/-- Instantiation of the C2 theorem: the record stored by a concrete signup
carries the cost-10 bcrypt digest of the submitted password. -/
theorem stored_password_always_hashed_witness :
    (⟨0, "alice", Digest.bcrypt 10 7 "secret1"⟩ : UserRec) ∈ ([] : Store) ∨
    ∃ p, (some "secret1" : Option String) = some p ∧
      (⟨0, "alice", Digest.bcrypt 10 7 "secret1"⟩ : UserRec).password =
        Digest.bcrypt 10 7 p :=
  stored_password_always_hashed.1 [] (some "alice") (some "secret1") 7
    ⟨0, "alice", Digest.bcrypt 10 7 "secret1"⟩ (by decide)

/-! ### Claims C5 and C10 -/

/-- The middleware computes exactly the dispatch on the normalized
candidate token: no candidate gives 401, otherwise the verification
outcome on the candidate decides between 403 and attaching the claims. -/
lemma authenticateToken_eq_candidate (V : String → Except VerifyErr Claims)
    (req : AuthRequest) :
    authenticateToken V req =
      match candidateToken req with
      | none => .unauthorized401
      | some t =>
        match V t with
        | .error _ => .forbidden403
        | .ok c => .next c := by
  rcases req with ⟨cookie, auth⟩
  unfold authenticateToken candidateToken tokenExpr headerBearerToken
  cases cookie with
  | some s =>
    by_cases hs : s.length = 0
    · simp only [jsTruthy, hs]
      cases auth with
      | none => simp [jsTruthy]
      | some h =>
        by_cases hh : h.length = 0
        · simp [jsTruthy, hh]
        · cases hsplit : (jsSplitSpace h)[1]? with
          | none => simp [jsTruthy, hh, hsplit]
          | some t =>
            by_cases ht : t.length = 0
            · simp [jsTruthy, hh, hsplit, ht]
            · simp [jsTruthy, hh, hsplit, ht]
    · simp [jsTruthy, hs]
  | none =>
    simp only [jsTruthy]
    cases auth with
    | none => simp [jsTruthy]
    | some h =>
      by_cases hh : h.length = 0
      · simp [jsTruthy, hh]
      · cases hsplit : (jsSplitSpace h)[1]? with
        | none => simp [jsTruthy, hh, hsplit]
        | some t =>
          by_cases ht : t.length = 0
          · simp [jsTruthy, hh, hsplit, ht]
          · simp [jsTruthy, hh, hsplit, ht]

/-- C5: the middleware takes its candidate token from the cookie when the
cookie yields a token (is truthy), otherwise from the bearer part of the
authorization header; no candidate leads to 401 (missing credential),
failed verification of the candidate to 403 (invalid credential), and
successful verification to attaching the resolved claims (user id and
username) to the request. -/
theorem session_middleware_dispatch (V : String → Except VerifyErr Claims)
    (req : AuthRequest) :
    (jsTruthy req.cookieAuthToken = true →
      candidateToken req = req.cookieAuthToken) ∧
    (jsTruthy req.cookieAuthToken = false →
      candidateToken req = headerBearerToken req) ∧
    (candidateToken req = none → authenticateToken V req = .unauthorized401) ∧
    (∀ t e, candidateToken req = some t → V t = .error e →
      authenticateToken V req = .forbidden403) ∧
    (∀ t c, candidateToken req = some t → V t = .ok c →
      authenticateToken V req = .next c) := by
  refine ⟨fun h => by simp [candidateToken, h],
    fun h => by simp [candidateToken, h], ?_, ?_, ?_⟩
  · intro h
    simp [authenticateToken_eq_candidate, h]
  · intro t e h hv
    simp [authenticateToken_eq_candidate, h, hv]
  · intro t c h hv
    simp [authenticateToken_eq_candidate, h, hv]

/-- Instantiation of the C5 theorem: a truthy cookie token that verifies is
attached, a bearer header token that fails verification gives 403, and a
request with neither gives 401. -/
theorem session_middleware_dispatch_witness :
    authenticateToken sampleVerify ⟨some "validtoken", none⟩ =
      .next ⟨1, "alice"⟩ ∧
    authenticateToken sampleVerify ⟨none, some "Bearer badtok"⟩ =
      .forbidden403 ∧
    authenticateToken sampleVerify ⟨none, none⟩ = .unauthorized401 :=
  ⟨(session_middleware_dispatch sampleVerify ⟨some "validtoken", none⟩).2.2.2.2
      "validtoken" ⟨1, "alice"⟩ (by decide) rfl,
   (session_middleware_dispatch sampleVerify ⟨none, some "Bearer badtok"⟩).2.2.2.1
      "badtok" .badSignature (by decide) rfl,
   (session_middleware_dispatch sampleVerify ⟨none, none⟩).2.2.1 (by decide)⟩

/-- C10: a request with no session cookie whose authorization header has no
space-separated second part (a bare token without the Bearer prefix, or an
empty header, or no header at all) is rejected with 401 under every
verification function — the result does not depend on the verifier, so the
header value is never passed to verification and a 403 is impossible. -/
theorem bare_header_unauthorized (V : String → Except VerifyErr Claims)
    (req : AuthRequest) (hc : req.cookieAuthToken = none)
    (hh : ∀ h, req.authHeader = some h → (jsSplitSpace h)[1]? = none) :
    authenticateToken V req = .unauthorized401 := by
  rw [authenticateToken_eq_candidate]
  have hcand : candidateToken req = none := by
    unfold candidateToken headerBearerToken
    rw [hc]
    simp only [jsTruthy, if_false, Bool.false_eq_true]
    cases hauth : req.authHeader with
    | none => simp
    | some h => simp [hh h hauth]
  rw [hcand]

/-- Instantiation of the C10 theorem: a bare token in the authorization
header, with no cookie, is rejected with 401 by the sample verifier (which
would have accepted the very same string as a token). -/
theorem bare_header_unauthorized_witness :
    authenticateToken sampleVerify ⟨none, some "validtoken"⟩ =
      .unauthorized401 :=
  bare_header_unauthorized sampleVerify ⟨none, some "validtoken"⟩ rfl
    (fun h hh => by injection hh with h2; subst h2; decide)

/-! ### Claim C9 -/

/-- Whether a record with the given username is stored. -/
def hasUser (store : Store) (u : String) : Bool :=
  (findOne store u).isSome

/-- Inserting any record preserves the presence of a username. -/
lemma hasUser_cons (store : Store) (r : UserRec) (u : String)
    (h : hasUser store u = true) : hasUser (r :: store) u = true := by
  unfold hasUser findOne at h ⊢
  rw [List.find?_cons]
  cases hr : (r.username == u) with
  | true => simp
  | false => exact h

/-- A storage-layer insert that went through certifies that the username
was absent before and describes the resulting store. -/
lemma insertUnique_some (store store' : Store) (u : String) (d : Digest)
    (h : insertUnique store u d = some store') :
    findOne store u = none ∧ store' = ⟨store.length, u, d⟩ :: store := by
  unfold insertUnique at h
  cases hf : findOne store u with
  | some r => rw [hf] at h; exact absurd h (by simp)
  | none => rw [hf] at h; exact ⟨rfl, (Option.some_inj.mp h).symm⟩

/-- Any step of a signup request preserves the presence of a username in
the shared store. -/
lemma sstep_mono (op : SignupOp) (store : Store) (ph : SPhase) (u : String)
    (h : hasUser store u = true) :
    hasUser (sstep op store ph).1 u = true := by
  cases ph with
  | start =>
    simp only [sstep]
    split
    · exact h
    · split
      · exact h
      · exact h
  | checked found => cases found <;> exact h
  | hashed d =>
    simp only [sstep]
    cases hi : insertUnique store (op.username.getD "") d with
    | none => exact h
    | some store' =>
      obtain ⟨-, rfl⟩ := insertUnique_some _ _ _ _ hi
      exact hasUser_cons store _ u h
  | done r => exact h

/-- A step that newly completes a signup with the success response was the
storage-layer insert: the username was absent before the step and is
present after it. -/
lemma sstep_new_success (op : SignupOp) (u : String)
    (hop : op.username = some u) (store : Store) (ph : SPhase)
    (hnew : succeededB (sstep op store ph).2 = true)
    (hold : succeededB ph = false) :
    hasUser (sstep op store ph).1 u = true ∧ hasUser store u = false := by
  cases ph with
  | start =>
    simp only [sstep] at hnew
    split at hnew
    · simp [succeededB] at hnew
    · split at hnew
      · simp [succeededB] at hnew
      · simp [succeededB] at hnew
  | checked found =>
    cases found <;> simp [sstep, succeededB] at hnew
  | done r =>
    have hr : succeededB (SPhase.done r) = true := hnew
    rw [hr] at hold
    simp at hold
  | hashed d =>
    simp only [sstep] at hnew ⊢
    cases hi : insertUnique store (op.username.getD "") d with
    | none => rw [hi] at hnew; simp [succeededB] at hnew
    | some store' =>
      obtain ⟨hnone, rfl⟩ := insertUnique_some _ _ _ _ hi
      rw [hop] at hnone
      simp only [Option.getD_some] at hnone
      constructor
      · rw [hop]
        unfold hasUser findOne
        rw [List.find?_cons]
        simp
      · unfold hasUser
        simp [hnone]

/-- The at-most-one-success invariant is preserved along every schedule:
a successfully finished request implies its username is stored, and the
two requests never both finish successfully. -/
lemma crun_inv (op1 op2 : SignupOp) (u : String)
    (hop1 : op1.username = some u) (hop2 : op2.username = some u)
    (sched : List Bool) :
    ∀ s : CState,
      (succeededB s.ph1 = true → hasUser s.store u = true) →
      (succeededB s.ph2 = true → hasUser s.store u = true) →
      (succeededB s.ph1 && succeededB s.ph2) = false →
      (succeededB (crun op1 op2 sched s).ph1 = true →
        hasUser (crun op1 op2 sched s).store u = true) ∧
      (succeededB (crun op1 op2 sched s).ph2 = true →
        hasUser (crun op1 op2 sched s).store u = true) ∧
      (succeededB (crun op1 op2 sched s).ph1 &&
        succeededB (crun op1 op2 sched s).ph2) = false := by
  induction sched with
  | nil => exact fun s a b c => ⟨a, b, c⟩
  | cons b rest ih =>
    intro s a1 a2 a3
    cases b with
    | true =>
      simp only [crun]
      apply ih
      · intro hs
        by_cases hold : succeededB s.ph1 = true
        · exact sstep_mono op1 s.store s.ph1 u (a1 hold)
        · exact (sstep_new_success op1 u hop1 s.store s.ph1 hs
            (Bool.not_eq_true _ ▸ hold)).1
      · intro hs
        exact sstep_mono op1 s.store s.ph1 u (a2 hs)
      · by_cases hnew : succeededB (sstep op1 s.store s.ph1).2 = true
        · by_cases hold : succeededB s.ph1 = true
          · rw [hold] at a3
            simp only [Bool.true_and] at a3
            simp [hnew, a3]
          · have habs := (sstep_new_success op1 u hop1 s.store s.ph1 hnew
              (Bool.not_eq_true _ ▸ hold)).2
            by_cases h2 : succeededB s.ph2 = true
            · rw [a2 h2] at habs
              simp at habs
            · simp [Bool.not_eq_true _ ▸ h2]
        · simp [Bool.not_eq_true _ ▸ hnew]
    | false =>
      simp only [crun]
      apply ih
      · intro hs
        exact sstep_mono op2 s.store s.ph2 u (a1 hs)
      · intro hs
        by_cases hold : succeededB s.ph2 = true
        · exact sstep_mono op2 s.store s.ph2 u (a2 hold)
        · exact (sstep_new_success op2 u hop2 s.store s.ph2 hs
            (Bool.not_eq_true _ ▸ hold)).1
      · by_cases hnew : succeededB (sstep op2 s.store s.ph2).2 = true
        · by_cases hold : succeededB s.ph2 = true
          · rw [hold] at a3
            simp only [Bool.and_true] at a3
            simp [hnew, a3]
          · have habs := (sstep_new_success op2 u hop2 s.store s.ph2 hnew
              (Bool.not_eq_true _ ▸ hold)).2
            by_cases h1 : succeededB s.ph1 = true
            · rw [a1 h1] at habs
              simp at habs
            · simp [Bool.not_eq_true _ ▸ h1]
        · simp [Bool.not_eq_true _ ▸ hnew]

/-- C9: under every interleaving of two concurrent signups for the same
username — for any passwords, salts and starting store — at most one of
the two requests finishes with the success response: even when both
existence checks pass before either save, the storage-layer uniqueness
constraint rejects the second save. -/
theorem concurrent_signup_at_most_one (u : String) (p1 p2 : Option String)
    (s1 s2 : Nat) (store : Store) (sched : List Bool) :
    (succeededB (crun ⟨some u, p1, s1⟩ ⟨some u, p2, s2⟩ sched
        ⟨store, .start, .start⟩).ph1 &&
     succeededB (crun ⟨some u, p1, s1⟩ ⟨some u, p2, s2⟩ sched
        ⟨store, .start, .start⟩).ph2) = false :=
  (crun_inv ⟨some u, p1, s1⟩ ⟨some u, p2, s2⟩ u rfl rfl sched
    ⟨store, .start, .start⟩
    (fun h => by simp [succeededB] at h)
    (fun h => by simp [succeededB] at h)
    (by simp [succeededB])).2.2
